import Mathlib

/-!
Shallow embedding of the 16x2 LCD driver (src/lcd_16x2.c, src/lcd_16x2.h).

The driver's observable behaviour is the sequence of calls it makes to the
two external collaborators, `pin_write` and `delay_us`/`delay_ms`.  We model
that sequence as a list of `Event`s.  The driver's mutable globals
(`rs_pin .. dat7_pin`, `display_function`, `display_control`, `display_mode`)
become the fields of `LCDState`; each C function becomes a Lean function
from the state to a new state paired with the emitted trace.

The three `uint8_t` globals are stored as `Nat`; each store applies `% 256`,
mirroring the truncation the C type performs on assignment, and each read of
a possibly-unconstrained field applies `% 256` as well, so that theorems can
quantify over arbitrary states.

Traces are kept at two levels.  `Act` records one entry per driver-internal
call (one `Act.send` per `lcd_send` call, one `Act.nib` per bare
`lcd_write_data` call made during initialisation, plus the delays and the
bare register-select write of `lcd_init`).  `interp` expands an `Act` trace
into the raw pin/delay `Event` trace using the pin-level functions
`lcd_send`, `lcd_write_data` and `enable_pulse`, which are transcribed
directly from the C source.
-/

namespace LCD16x2

/-! ### Constants from lcd_16x2.h -/

def LCD_CLEARDISPLAY : Nat := 0x01
def LCD_RETURNHOME : Nat := 0x02
def LCD_ENTRYMODESET : Nat := 0x04
def LCD_DISPLAYCONTROL : Nat := 0x08
def LCD_CURSORSHIFT : Nat := 0x10
def LCD_FUNCTIONSET : Nat := 0x20
def LCD_SETCGRAMADDR : Nat := 0x40
def LCD_SETDDRAMADDR : Nat := 0x80

def LCD_ENTRYRIGHT : Nat := 0x00
def LCD_ENTRYLEFT : Nat := 0x02
def LCD_ENTRYSHIFTINCREMENT : Nat := 0x01
def LCD_ENTRYSHIFTDECREMENT : Nat := 0x00

def LCD_DISPLAYON : Nat := 0x04
def LCD_DISPLAYOFF : Nat := 0x00
def LCD_CURSORON : Nat := 0x02
def LCD_CURSOROFF : Nat := 0x00
def LCD_BLINKON : Nat := 0x01
def LCD_BLINKOFF : Nat := 0x00

def LCD_DISPLAYMOVE : Nat := 0x08
def LCD_CURSORMOVE : Nat := 0x00
def LCD_MOVERIGHT : Nat := 0x04
def LCD_MOVELEFT : Nat := 0x00

def LCD_8BITMODE : Nat := 0x10
def LCD_4BITMODE : Nat := 0x00
def LCD_2LINE : Nat := 0x08
def LCD_1LINE : Nat := 0x00
def LCD_5x10DOTS : Nat := 0x04
def LCD_5x8DOTS : Nat := 0x00

def NUM_LINES : Nat := 2

/-! ### Driver state (the module-level globals of lcd_16x2.c) -/

/-- The mutable globals of the driver: the six stored pin identifiers and the
three `uint8_t` state bytes. -/
structure LCDState where
  rs_pin : Nat
  en_pin : Nat
  dat4_pin : Nat
  dat5_pin : Nat
  dat6_pin : Nat
  dat7_pin : Nat
  display_function : Nat
  display_control : Nat
  display_mode : Nat
deriving DecidableEq, Repr

/-- `uint8_t row_offsets[4] = {0x00, 0x40, 0x10, 0x50};` -/
def row_offsets : List Nat := [0x00, 0x40, 0x10, 0x50]

/-! ### Pin-level events: the calls made to the external collaborators -/

/-- One call to an external collaborator: `pin_write(pin, value)`,
`delay_us(t)` or `delay_ms(t)`. -/
inductive Event where
  | pinWrite (pin value : Nat)
  | delayUs (t : Nat)
  | delayMs (t : Nat)
deriving DecidableEq, Repr

/-- `enable_pulse`: en low, wait 1 us, en high, wait 1 us, en low, wait 100 us. -/
def enable_pulse (s : LCDState) : List Event :=
  [Event.pinWrite s.en_pin 0, Event.delayUs 1,
   Event.pinWrite s.en_pin 1, Event.delayUs 1,
   Event.pinWrite s.en_pin 0, Event.delayUs 100]

/-- `lcd_write_data(data)`: drive each data pin from bits 1, 2, 4, 8 of the
argument, then pulse enable. -/
def lcd_write_data (s : LCDState) (data : Nat) : List Event :=
  [Event.pinWrite s.dat4_pin (if data &&& 1 ≠ 0 then 1 else 0),
   Event.pinWrite s.dat5_pin (if data &&& 2 ≠ 0 then 1 else 0),
   Event.pinWrite s.dat6_pin (if data &&& 4 ≠ 0 then 1 else 0),
   Event.pinWrite s.dat7_pin (if data &&& 8 ≠ 0 then 1 else 0)]
  ++ enable_pulse s

/-- `lcd_send(value, mode)`: write `mode` on the register-select pin, then send
the high nibble and the low nibble.  The `% 256` models the `uint8_t`
parameter types. -/
def lcd_send (s : LCDState) (value mode : Nat) : List Event :=
  Event.pinWrite s.rs_pin (mode % 256)
    :: (lcd_write_data s ((value % 256) >>> 4) ++ lcd_write_data s (value % 256))

/-! ### Call-level trace -/

/-- One driver-internal transmission step: a full `lcd_send(value, mode)`
call, a bare `lcd_write_data(data)` call (initialisation only), the bare
`pin_write(rs_pin, 0)` of `lcd_init`, or a delay. -/
inductive Act where
  | send (value mode : Nat)
  | nib (data : Nat)
  | rsLow
  | waitUs (t : Nat)
  | waitMs (t : Nat)
deriving DecidableEq, Repr

/-- `lcd_command(cmd)`: `lcd_send(cmd, 0)`, with the `uint8_t` parameter
truncation. -/
def lcd_command (cmd : Nat) : Act := Act.send (cmd % 256) 0

/-- `lcd_write(value)`: `lcd_send(value, 1)`, with the `uint8_t` parameter
truncation. -/
def lcd_write (value : Nat) : Act := Act.send (value % 256) 1

/-- Expansion of one call-level step into the pin/delay events it makes. -/
def interpAct (s : LCDState) : Act → List Event
  | Act.send v m => lcd_send s v m
  | Act.nib d => lcd_write_data s d
  | Act.rsLow => [Event.pinWrite s.rs_pin 0]
  | Act.waitUs t => [Event.delayUs t]
  | Act.waitMs t => [Event.delayMs t]

/-- Expansion of a call-level trace into the pin/delay event trace. -/
def interp (s : LCDState) (tr : List Act) : List Event :=
  tr.flatMap (interpAct s)

/-! ### The public operations -/

/-- `lcd_display_off`: clear the display-on bit, re-send the display-control
command. -/
def lcd_display_off (s : LCDState) : LCDState × List Act :=
  let s := { s with
    display_control := (s.display_control % 256) &&& (255 ^^^ LCD_DISPLAYON) }
  (s, [lcd_command (LCD_DISPLAYCONTROL ||| s.display_control)])

/-- `lcd_display_on`: set the display-on bit, re-send the display-control
command. -/
def lcd_display_on (s : LCDState) : LCDState × List Act :=
  let s := { s with
    display_control := (s.display_control % 256) ||| LCD_DISPLAYON }
  (s, [lcd_command (LCD_DISPLAYCONTROL ||| s.display_control)])

/-- `lcd_clear`: clear-display command, then a 2 ms wait. -/
def lcd_clear (s : LCDState) : LCDState × List Act :=
  (s, [lcd_command LCD_CLEARDISPLAY, Act.waitMs 2])

/-- `lcd_home`: return-home command, then a 2 ms wait. -/
def lcd_home (s : LCDState) : LCDState × List Act :=
  (s, [lcd_command LCD_RETURNHOME, Act.waitMs 2])

/-- `lcd_shift_left`. -/
def lcd_shift_left (s : LCDState) : LCDState × List Act :=
  (s, [lcd_command (LCD_CURSORSHIFT ||| LCD_DISPLAYMOVE ||| LCD_MOVELEFT)])

/-- `lcd_shift_right`. -/
def lcd_shift_right (s : LCDState) : LCDState × List Act :=
  (s, [lcd_command (LCD_CURSORSHIFT ||| LCD_DISPLAYMOVE ||| LCD_MOVERIGHT)])

/-- `lcd_cursor_on`. -/
def lcd_cursor_on (s : LCDState) : LCDState × List Act :=
  let s := { s with
    display_control := (s.display_control % 256) ||| LCD_CURSORON }
  (s, [lcd_command (LCD_DISPLAYCONTROL ||| s.display_control)])

/-- `lcd_cursor_off`. -/
def lcd_cursor_off (s : LCDState) : LCDState × List Act :=
  let s := { s with
    display_control := (s.display_control % 256) &&& (255 ^^^ LCD_CURSORON) }
  (s, [lcd_command (LCD_DISPLAYCONTROL ||| s.display_control)])

/-- `lcd_blink_on`. -/
def lcd_blink_on (s : LCDState) : LCDState × List Act :=
  let s := { s with
    display_control := (s.display_control % 256) ||| LCD_BLINKON }
  (s, [lcd_command (LCD_DISPLAYCONTROL ||| s.display_control)])

/-- `lcd_blink_off`. -/
def lcd_blink_off (s : LCDState) : LCDState × List Act :=
  let s := { s with
    display_control := (s.display_control % 256) &&& (255 ^^^ LCD_BLINKON) }
  (s, [lcd_command (LCD_DISPLAYCONTROL ||| s.display_control)])

/-- `lcd_autoscroll_on`. -/
def lcd_autoscroll_on (s : LCDState) : LCDState × List Act :=
  let s := { s with
    display_mode := (s.display_mode % 256) ||| LCD_ENTRYSHIFTINCREMENT }
  (s, [lcd_command (LCD_ENTRYMODESET ||| s.display_mode)])

/-- `lcd_autoscroll_off`. -/
def lcd_autoscroll_off (s : LCDState) : LCDState × List Act :=
  let s := { s with
    display_mode := (s.display_mode % 256) &&& (255 ^^^ LCD_ENTRYSHIFTINCREMENT) }
  (s, [lcd_command (LCD_ENTRYMODESET ||| s.display_mode)])

/-- `lcd_right_to_left`. -/
def lcd_right_to_left (s : LCDState) : LCDState × List Act :=
  let s := { s with
    display_mode := (s.display_mode % 256) &&& (255 ^^^ LCD_ENTRYLEFT) }
  (s, [lcd_command (LCD_ENTRYMODESET ||| s.display_mode)])

/-- `lcd_left_to_right`. -/
def lcd_left_to_right (s : LCDState) : LCDState × List Act :=
  let s := { s with
    display_mode := (s.display_mode % 256) ||| LCD_ENTRYLEFT }
  (s, [lcd_command (LCD_ENTRYMODESET ||| s.display_mode)])

/-- `lcd_set_cursor(col, row)`: clamp the row first against the table length,
then against `NUM_LINES`, and send set-DDRAM-address.  `col` is `uint16_t`
and `row` is `uint8_t`, hence the entry masks. -/
def lcd_set_cursor (s : LCDState) (col row : Nat) : LCDState × List Act :=
  let col := col % 65536
  let row := row % 256
  let max_lines : Nat := 4
  let row := if row ≥ max_lines then max_lines - 1 else row
  let row := if row ≥ NUM_LINES then NUM_LINES - 1 else row
  (s, [lcd_command (LCD_SETDDRAMADDR ||| (col + row_offsets.getD row 0))])

/-- `lcd_write_char(data)`: one data-register send. -/
def lcd_write_char (s : LCDState) (data : Nat) : LCDState × List Act :=
  (s, [lcd_write data])

/-- The loop body of `lcd_write_string`: emit one data-register send per
character until the terminating null byte. -/
def lcd_write_string_acts : List Nat → List Act
  | [] => []
  | c :: rest =>
    if c % 256 = 0 then [] else lcd_write c :: lcd_write_string_acts rest

/-- `lcd_write_string(str)`: one `lcd_write_char` per character up to the
null terminator.  The C buffer is modelled as a list of bytes. -/
def lcd_write_string (s : LCDState) (str : List Nat) : LCDState × List Act :=
  (s, lcd_write_string_acts str)

/-- The bytes `sprintf(str, "%d", num)` produces for a `uint32_t` argument
read through `%d` (the libc formatter is outside the repository; this
transcribes the usual two's-complement reinterpretation of the argument). -/
def sprintf_d (num : Nat) : List Nat :=
  let n := num % 4294967296
  if n < 2147483648 then (Nat.toDigits 10 n).map Char.toNat
  else 45 :: (Nat.toDigits 10 (4294967296 - n)).map Char.toNat

/-- `lcd_write_int(num)`: format into a local buffer and forward to
`lcd_write_string`. -/
def lcd_write_int (s : LCDState) (num : Nat) : LCDState × List Act :=
  lcd_write_string s (sprintf_d num)

/-- `lcd_write_float(num)`: format into a local buffer and forward to
`lcd_write_string`.  Floating-point formatting is not modelled; the operation
is parameterised by the bytes the formatter produced, which is all any claim
about it needs. -/
def lcd_write_float (s : LCDState) (formatted : List Nat) : LCDState × List Act :=
  lcd_write_string s formatted

/-- `lcd_init(rs, en, dat4, dat5, dat6, dat7)`: record the pins, run the
datasheet wake-up sequence, then function-set, display-on, clear and
entry-mode. -/
def lcd_init (s0 : LCDState) (rs en dat4 dat5 dat6 dat7 : Nat) :
    LCDState × List Act :=
  let s1 := { s0 with rs_pin := rs, en_pin := en, dat4_pin := dat4,
                      dat5_pin := dat5, dat6_pin := dat6, dat7_pin := dat7 }
  let s2 := { s1 with
    display_function := (LCD_4BITMODE ||| LCD_2LINE ||| LCD_5x8DOTS) % 256 }
  let t1 : List Act :=
    [Act.waitMs 50, Act.rsLow,
     Act.nib 0x03, Act.waitMs 5,
     Act.nib 0x03, Act.waitMs 5,
     Act.nib 0x03, Act.waitUs 150,
     Act.nib 0x02,
     lcd_command (LCD_FUNCTIONSET ||| s2.display_function)]
  let s3 := { s2 with
    display_control := (LCD_DISPLAYON ||| LCD_CURSOROFF ||| LCD_BLINKOFF) % 256 }
  let r4 := lcd_display_on s3
  let r5 := lcd_clear r4.1
  let s6 := { r5.1 with
    display_mode := (LCD_ENTRYLEFT ||| LCD_ENTRYSHIFTDECREMENT) % 256 }
  (s6, t1 ++ r4.2 ++ r5.2 ++ [lcd_command (LCD_ENTRYMODESET ||| s6.display_mode)])

/-! ### Operation alphabet, for quantifying over call sequences -/

/-- One public driver operation (everything except `lcd_init`).
`writeFloat` carries the formatter's output bytes. -/
inductive Op where
  | displayOff | displayOn | clear | home | shiftLeft | shiftRight
  | cursorOn | cursorOff | blinkOn | blinkOff
  | autoscrollOn | autoscrollOff | rightToLeft | leftToRight
  | setCursor (col row : Nat)
  | writeChar (c : Nat)
  | writeString (str : List Nat)
  | writeInt (num : Nat)
  | writeFloat (formatted : List Nat)
deriving DecidableEq, Repr

/-- Dispatch one operation. -/
def runOp : Op → LCDState → LCDState × List Act
  | Op.displayOff, s => lcd_display_off s
  | Op.displayOn, s => lcd_display_on s
  | Op.clear, s => lcd_clear s
  | Op.home, s => lcd_home s
  | Op.shiftLeft, s => lcd_shift_left s
  | Op.shiftRight, s => lcd_shift_right s
  | Op.cursorOn, s => lcd_cursor_on s
  | Op.cursorOff, s => lcd_cursor_off s
  | Op.blinkOn, s => lcd_blink_on s
  | Op.blinkOff, s => lcd_blink_off s
  | Op.autoscrollOn, s => lcd_autoscroll_on s
  | Op.autoscrollOff, s => lcd_autoscroll_off s
  | Op.rightToLeft, s => lcd_right_to_left s
  | Op.leftToRight, s => lcd_left_to_right s
  | Op.setCursor col row, s => lcd_set_cursor s col row
  | Op.writeChar c, s => lcd_write_char s c
  | Op.writeString str, s => lcd_write_string s str
  | Op.writeInt num, s => lcd_write_int s num
  | Op.writeFloat f, s => lcd_write_float s f

/-- Run a sequence of operations, concatenating the traces. -/
def runOps : List Op → LCDState → LCDState × List Act
  | [], s => (s, [])
  | op :: rest, s =>
    let r := runOp op s
    let r2 := runOps rest r.1
    (r2.1, r.2 ++ r2.2)

/-! ### Classifying command transmissions in a trace -/

/-- The byte of a display-control command transmission, if the step is one:
an instruction-register send whose byte has bit 3 as its highest set bit. -/
def dcByte : Act → Option Nat
  | Act.send v m =>
    if m = 0 ∧ LCD_DISPLAYCONTROL ≤ v ∧ v < 2 * LCD_DISPLAYCONTROL
    then some v else none
  | _ => none

/-- The byte of an entry-mode-set command transmission, if the step is one. -/
def emByte : Act → Option Nat
  | Act.send v m =>
    if m = 0 ∧ LCD_ENTRYMODESET ≤ v ∧ v < 2 * LCD_ENTRYMODESET
    then some v else none
  | _ => none

/-- The byte of the last display-control command in a trace (seeded). -/
def trackDC (tr : List Act) (d : Nat) : Nat :=
  tr.foldl (fun acc a => (dcByte a).getD acc) d

/-- The byte of the last entry-mode-set command in a trace (seeded). -/
def trackEM (tr : List Act) (d : Nat) : Nat :=
  tr.foldl (fun acc a => (emByte a).getD acc) d

/-- Which operations assign one of the three state bytes in the source. -/
def writesState : Op → Bool
  | Op.displayOff | Op.displayOn | Op.cursorOn | Op.cursorOff
  | Op.blinkOn | Op.blinkOff | Op.autoscrollOn | Op.autoscrollOff
  | Op.rightToLeft | Op.leftToRight => true
  | _ => false

/-- A concrete state used to instantiate theorems: distinct pins, the state
bytes as `lcd_init` leaves them. -/
def demoState : LCDState :=
  { rs_pin := 1, en_pin := 2, dat4_pin := 3, dat5_pin := 4,
    dat6_pin := 5, dat7_pin := 6,
    display_function := 8, display_control := 4, display_mode := 2 }

/-! ### Arithmetic helper lemmas -/

lemma mod256_lt (a : Nat) : a % 256 < 256 := Nat.mod_lt _ (by norm_num)

lemma or_lt_256 {a b : Nat} (ha : a < 256) (hb : b < 256) : a ||| b < 256 := by
  have h : (256 : Nat) = 2 ^ 8 := by norm_num
  rw [h] at ha hb ⊢
  exact Nat.or_lt_two_pow ha hb

lemma or_ne_zero_right (x y : Nat) (hy : y ≠ 0) : x ||| y ≠ 0 := by
  intro h
  rcases Nat.ne_zero_implies_bit_true hy with ⟨i, hi⟩
  have h2 := congrArg (fun z => Nat.testBit z i) h
  simp [hi] at h2

lemma le_or_mod256 (k : Nat) : 128 ≤ (128 ||| k) % 256 := by
  have h7 : ((128 ||| k) % 256).testBit 7 = true := by
    rw [show (256 : Nat) = 2 ^ 8 from by norm_num, Nat.testBit_mod_two_pow]
    simp [show Nat.testBit 128 7 = true from by decide]
  have h := Nat.testBit_implies_ge h7
  norm_num at h
  exact h

lemma eight_le_or (x : Nat) : 8 ≤ 8 ||| x := by
  have h := Nat.testBit_implies_ge
    (x := 8 ||| x) (i := 3) (by simp [show Nat.testBit 8 3 = true from by decide])
  norm_num at h
  exact h

lemma four_le_or (x : Nat) : 4 ≤ 4 ||| x := by
  have h := Nat.testBit_implies_ge
    (x := 4 ||| x) (i := 2) (by simp [show Nat.testBit 4 2 = true from by decide])
  norm_num at h
  exact h

lemma or_lt_8 {a b : Nat} (ha : a < 8) (hb : b < 8) : a ||| b < 8 := by
  have h : (8 : Nat) = 2 ^ 3 := by norm_num
  rw [h] at ha hb ⊢
  exact Nat.or_lt_two_pow ha hb

lemma or_lt_16 {a b : Nat} (ha : a < 16) (hb : b < 16) : a ||| b < 16 := by
  have h : (16 : Nat) = 2 ^ 4 := by norm_num
  rw [h] at ha hb ⊢
  exact Nat.or_lt_two_pow ha hb

/-! ### Claim theorems -/

/-- Claim C3: every nibble transmission (`lcd_write_data`) first sets the
four data-pin levels, then pulses the enable line: low, wait 1 us, high,
wait 1 us, low, wait 100 us — meeting the 1 us, 1 us and 100 us minima. -/
theorem write_data_ends_with_enable_pulse (s : LCDState) (d : Nat) :
    ∃ a b c e : Nat,
      lcd_write_data s d =
        [Event.pinWrite s.dat4_pin a, Event.pinWrite s.dat5_pin b,
         Event.pinWrite s.dat6_pin c, Event.pinWrite s.dat7_pin e,
         Event.pinWrite s.en_pin 0, Event.delayUs 1,
         Event.pinWrite s.en_pin 1, Event.delayUs 1,
         Event.pinWrite s.en_pin 0, Event.delayUs 100]
      ∧ 1 ≥ 1 ∧ 100 ≥ 100 :=
  ⟨_, _, _, _, rfl, Nat.le_refl 1, Nat.le_refl 100⟩

/-- Claim C9: `lcd_clear` emits exactly the Clear-Display command byte 0x01
followed immediately by a 2 ms wait, and `lcd_home` exactly the Return-Home
byte 0x02 followed immediately by a 2 ms wait; 2 ms meets the 2 ms minimum
and neither operation emits anything else. -/
theorem clear_home_traces (s : LCDState) :
    lcd_clear s = (s, [Act.send 0x01 0, Act.waitMs 2])
    ∧ lcd_home s = (s, [Act.send 0x02 0, Act.waitMs 2])
    ∧ LCD_CLEARDISPLAY = 0x01 ∧ LCD_RETURNHOME = 0x02 ∧ 2 ≥ 2 :=
  ⟨rfl, rfl, rfl, rfl, Nat.le_refl 2⟩

lemma clamp_index_eq (r : Nat) :
    (if (if r ≥ 4 then 4 - 1 else r) ≥ NUM_LINES
     then NUM_LINES - 1
     else (if r ≥ 4 then 4 - 1 else r))
      = min r (min (4 - 1) (NUM_LINES - 1)) := by
  simp only [NUM_LINES]
  split_ifs <;> omega

lemma set_cursor_trace (s : LCDState) (col row : Nat) :
    (lcd_set_cursor s col row).2 =
      [Act.send ((LCD_SETDDRAMADDR |||
        ((col % 65536) +
          row_offsets.getD (min (row % 256) (min (4 - 1) (NUM_LINES - 1))) 0))
        % 256) 0] := by
  show [lcd_command _] = _
  rw [lcd_command, ← clamp_index_eq (row % 256)]

/-- Claim C5: `lcd_set_cursor` never fails: for every column and row it
leaves the state unchanged and sends the single Set-DDRAM-Address command
carrying `column + row_offsets[clamped row]`, where the row is clamped to
the smaller of the table length minus one and `NUM_LINES` minus one, and no
bounds check is applied to the column. -/
theorem set_cursor_total_clamped (s : LCDState) (col row : Nat) :
    (lcd_set_cursor s col row).1 = s ∧
    (lcd_set_cursor s col row).2 =
      [Act.send ((LCD_SETDDRAMADDR |||
        ((col % 65536) +
          row_offsets.getD (min (row % 256) (min (4 - 1) (NUM_LINES - 1))) 0))
        % 256) 0] :=
  ⟨rfl, set_cursor_trace s col row⟩

/-- Claim C4 fails on the code: with `NUM_LINES = 2` the second clamp fires
after the first, so `lcd_set_cursor(0, 4)` sends the row-1 offset 0x40
(command byte 0xC0), not the row-3 offset 0x50 (command byte 0xD0). -/
theorem set_cursor_row4_counterexample :
    (lcd_set_cursor demoState 0 4).2
        = [Act.send (LCD_SETDDRAMADDR ||| (0 + 0x40)) 0]
    ∧ (lcd_set_cursor demoState 0 4).2
        ≠ [Act.send (LCD_SETDDRAMADDR ||| (0 + 0x50)) 0] := by
  constructor <;> decide

/-- Claim C4 (amended): with the driver's 2-line configuration every row
index of two or more — in particular every row index of four or more — is
clamped down to row 1, so the Set-DDRAM-Address command uses the row-1
offset 0x40. -/
theorem set_cursor_clamp_two_line (s : LCDState) (col row : Nat)
    (h2 : 2 ≤ row) (h256 : row < 256) :
    (lcd_set_cursor s col row).2 =
      [Act.send ((LCD_SETDDRAMADDR ||| ((col % 65536) + 0x40)) % 256) 0] := by
  have hfull := set_cursor_trace s col row
  have hr : row % 256 = row := Nat.mod_eq_of_lt h256
  have hmin : min (row % 256) (min (4 - 1) (NUM_LINES - 1)) = 1 := by
    rw [hr]; simp only [NUM_LINES]; omega
  rw [hfull, hmin]
  rfl

/-- Witness for the amended claim C4 at column 0, row 4. -/
theorem set_cursor_clamp_two_line_witness :
    2 ≤ 4 ∧ 4 < 256 ∧
    (lcd_set_cursor demoState 0 4).2 =
      [Act.send ((LCD_SETDDRAMADDR ||| ((0 % 65536) + 0x40)) % 256) 0] :=
  ⟨by decide, by decide,
    set_cursor_clamp_two_line demoState 0 4 (by decide) (by decide)⟩

/-- Claim C10 fails on the code: `lcd_right_to_left`, which is neither
`lcd_init` nor one of the eight on/off toggles, writes `display_mode`
(2 becomes 0 on the post-init state). -/
theorem right_to_left_writes_state_counterexample :
    (lcd_right_to_left demoState).1.display_mode = 0
    ∧ demoState.display_mode = 2
    ∧ (lcd_right_to_left demoState).1 ≠ demoState := by
  refine ⟨by decide, by decide, by decide⟩

/-- Claim C10 (amended): `lcd_clear`, `lcd_home`, `lcd_shift_left`,
`lcd_shift_right`, `lcd_set_cursor`, `lcd_write_char`, `lcd_write_string`,
`lcd_write_int` and `lcd_write_float` leave the whole driver state (the
three state bytes and the six pin identifiers) unchanged; only `lcd_init`,
the eight on/off toggles and the two text-direction operations ever write
the state bytes, and no operation other than `lcd_init` writes the pin
identifiers. -/
theorem frame_of_non_toggle_ops :
    (∀ (s : LCDState) (col row c num : Nat) (str formatted : List Nat),
      (lcd_clear s).1 = s ∧ (lcd_home s).1 = s ∧
      (lcd_shift_left s).1 = s ∧ (lcd_shift_right s).1 = s ∧
      (lcd_set_cursor s col row).1 = s ∧
      (lcd_write_char s c).1 = s ∧ (lcd_write_string s str).1 = s ∧
      (lcd_write_int s num).1 = s ∧ (lcd_write_float s formatted).1 = s)
    ∧ (∀ (op : Op) (s : LCDState), writesState op = false → (runOp op s).1 = s)
    ∧ (∀ (op : Op) (s : LCDState),
        (runOp op s).1.rs_pin = s.rs_pin ∧ (runOp op s).1.en_pin = s.en_pin ∧
        (runOp op s).1.dat4_pin = s.dat4_pin ∧
        (runOp op s).1.dat5_pin = s.dat5_pin ∧
        (runOp op s).1.dat6_pin = s.dat6_pin ∧
        (runOp op s).1.dat7_pin = s.dat7_pin) := by
  refine ⟨?_, ?_, ?_⟩
  · intro s col row c num str formatted
    exact ⟨rfl, rfl, rfl, rfl, rfl, rfl, rfl, rfl, rfl⟩
  · intro op s h
    cases op <;> first
      | rfl
      | simp [writesState] at h
  · intro op s
    cases op <;> exact ⟨rfl, rfl, rfl, rfl, rfl, rfl⟩

/-- Witness for the amended claim C10 at `lcd_clear`. -/
theorem frame_of_non_toggle_ops_witness :
    writesState Op.clear = false ∧ (runOp Op.clear demoState).1 = demoState :=
  ⟨rfl, frame_of_non_toggle_ops.2.1 Op.clear demoState rfl⟩

/-- Claim C8: from any state, two successive `lcd_cursor_on` calls produce
identical states and identical single display-control transmissions whose
byte has the cursor bit set; a following `lcd_cursor_off` produces a single
display-control transmission whose byte has the cursor bit cleared. -/
theorem cursor_on_twice_then_off (s : LCDState) :
    (lcd_cursor_on (lcd_cursor_on s).1).1 = (lcd_cursor_on s).1
    ∧ (lcd_cursor_on (lcd_cursor_on s).1).2 = (lcd_cursor_on s).2
    ∧ (lcd_cursor_on s).2 =
        [Act.send (LCD_DISPLAYCONTROL ||| (lcd_cursor_on s).1.display_control) 0]
    ∧ (LCD_DISPLAYCONTROL ||| (lcd_cursor_on s).1.display_control)
        &&& LCD_CURSORON ≠ 0
    ∧ (lcd_cursor_off (lcd_cursor_on (lcd_cursor_on s).1).1).2 =
        [Act.send (LCD_DISPLAYCONTROL |||
          (lcd_cursor_off (lcd_cursor_on (lcd_cursor_on s).1).1).1.display_control) 0]
    ∧ (LCD_DISPLAYCONTROL |||
        (lcd_cursor_off (lcd_cursor_on (lcd_cursor_on s).1).1).1.display_control)
        &&& LCD_CURSORON = 0 := by
  have ha : s.display_control % 256 < 256 := mod256_lt _
  have h1 : (s.display_control % 256) ||| 2 < 256 := or_lt_256 ha (by norm_num)
  have hm1 : ((s.display_control % 256) ||| 2) % 256 = (s.display_control % 256) ||| 2 :=
    Nat.mod_eq_of_lt h1
  have hidem : (((s.display_control % 256) ||| 2) % 256) ||| 2
      = (s.display_control % 256) ||| 2 := by
    rw [hm1, Nat.or_assoc, Nat.or_self]
  have hsteq : (lcd_cursor_on (lcd_cursor_on s).1).1 = (lcd_cursor_on s).1 := by
    simp only [lcd_cursor_on, LCD_CURSORON]
    rw [hidem]
  refine ⟨hsteq, ?_, ?_, ?_, ?_, ?_⟩
  · simp only [lcd_cursor_on, LCD_CURSORON, lcd_command]
    rw [hidem]
  · simp only [lcd_cursor_on, LCD_CURSORON, LCD_DISPLAYCONTROL, lcd_command]
    rw [Nat.mod_eq_of_lt (or_lt_256 (by norm_num) h1)]
  · simp only [lcd_cursor_on, LCD_CURSORON, LCD_DISPLAYCONTROL]
    rw [Nat.and_distrib_right, Nat.and_distrib_right,
      show (8 : Nat) &&& 2 = 0 from by decide,
      show (2 : Nat) &&& 2 = 2 from by decide]
    simp only [Nat.zero_or]
    exact or_ne_zero_right _ _ (by norm_num)
  · rw [hsteq]
    simp only [lcd_cursor_on, lcd_cursor_off, LCD_CURSORON, LCD_DISPLAYCONTROL,
      lcd_command]
    rw [hm1]
    have hlt : ((s.display_control % 256) ||| 2) &&& (255 ^^^ 2) < 256 :=
      lt_of_le_of_lt Nat.and_le_left h1
    rw [Nat.mod_eq_of_lt (or_lt_256 (by norm_num) hlt)]
  · rw [hsteq]
    simp only [lcd_cursor_on, lcd_cursor_off, LCD_CURSORON, LCD_DISPLAYCONTROL]
    rw [Nat.and_distrib_right, Nat.and_assoc,
      show ((255 : Nat) ^^^ 2) &&& 2 = 0 from by decide,
      show (8 : Nat) &&& 2 = 0 from by decide]
    simp

lemma write_string_acts_append_null (str : List Nat)
    (h : ∀ c ∈ str, c % 256 ≠ 0) :
    lcd_write_string_acts (str ++ [0]) =
      str.map (fun c => Act.send (c % 256) 1) := by
  induction str with
  | nil => rfl
  | cons c rest ih =>
    have hc : c % 256 ≠ 0 := h c (List.mem_cons_self c rest)
    have ih2 := ih (fun x hx => h x (List.mem_cons_of_mem _ hx))
    simp [lcd_write_string_acts, hc, ih2, lcd_write]

/-- Claim C7: `lcd_write_string` emits exactly one data-register send, in
order, for each character before the null terminator and nothing for the
terminator itself; writing "Hi" emits exactly the sends of 0x48 then 0x69,
each expanding to the high-nibble-then-low-nibble pin pattern. -/
theorem write_string_one_send_per_char (s : LCDState) (str : List Nat)
    (h : ∀ c ∈ str, c % 256 ≠ 0) :
    (lcd_write_string s (str ++ [0])).2 = str.map (fun c => Act.send (c % 256) 1)
    ∧ (lcd_write_string s [72, 105, 0]).2 = [Act.send 72 1, Act.send 105 1]
    ∧ interp demoState [Act.send 72 1, Act.send 105 1]
        = lcd_send demoState 72 1 ++ lcd_send demoState 105 1
    ∧ lcd_send demoState 72 1 =
        Event.pinWrite demoState.rs_pin 1
          :: (lcd_write_data demoState 0x4 ++ lcd_write_data demoState 0x8)
    ∧ lcd_send demoState 105 1 =
        Event.pinWrite demoState.rs_pin 1
          :: (lcd_write_data demoState 0x6 ++ lcd_write_data demoState 0x9) := by
  refine ⟨write_string_acts_append_null str h, rfl, by decide, by decide, by decide⟩

/-- Witness for claim C7 on the string "Hi". -/
theorem write_string_one_send_per_char_witness :
    (∀ c ∈ ([72, 105] : List Nat), c % 256 ≠ 0)
    ∧ (lcd_write_string demoState ([72, 105] ++ [0])).2
        = [72, 105].map (fun c => Act.send (c % 256) 1) :=
  ⟨by decide, (write_string_one_send_per_char demoState [72, 105] (by decide)).1⟩

lemma write_data_low_nibble (s : LCDState) (d : Nat) :
    lcd_write_data s d = lcd_write_data s (d &&& 15) := by
  have h1 : (d &&& 15) &&& 1 = d &&& 1 := by
    rw [Nat.and_assoc, show (15 : Nat) &&& 1 = 1 from by decide]
  have h2 : (d &&& 15) &&& 2 = d &&& 2 := by
    rw [Nat.and_assoc, show (15 : Nat) &&& 2 = 2 from by decide]
  have h4 : (d &&& 15) &&& 4 = d &&& 4 := by
    rw [Nat.and_assoc, show (15 : Nat) &&& 4 = 4 from by decide]
  have h8 : (d &&& 15) &&& 8 = d &&& 8 := by
    rw [Nat.and_assoc, show (15 : Nat) &&& 8 = 8 from by decide]
  simp [lcd_write_data, h1, h2, h4, h8]

lemma rs_not_in_write_data (s : LCDState)
    (h4 : s.rs_pin ≠ s.dat4_pin) (h5 : s.rs_pin ≠ s.dat5_pin)
    (h6 : s.rs_pin ≠ s.dat6_pin) (h7 : s.rs_pin ≠ s.dat7_pin)
    (he : s.rs_pin ≠ s.en_pin) (d lv : Nat) :
    Event.pinWrite s.rs_pin lv ∉ lcd_write_data s d := by
  simp [lcd_write_data, enable_pulse, h4, h5, h6, h7, he]

/-- Claim C1: `lcd_send(v, m)` first drives the register-select pin to `m`
and then performs exactly two nibble transmissions, presenting
`(v >>> 4) &&& 0xF` and then `v &&& 0xF`; `lcd_write_data` only inspects the
low four bits of its argument, and (for distinct pins) no later event in the
trace writes the register-select pin, so it stays at `m`. -/
theorem send_two_nibble_transmissions (s : LCDState) (v m : Nat)
    (hv : v < 256) (hm : m < 2)
    (hd4 : s.rs_pin ≠ s.dat4_pin) (hd5 : s.rs_pin ≠ s.dat5_pin)
    (hd6 : s.rs_pin ≠ s.dat6_pin) (hd7 : s.rs_pin ≠ s.dat7_pin)
    (hen : s.rs_pin ≠ s.en_pin) :
    lcd_send s v m =
      Event.pinWrite s.rs_pin m
        :: (lcd_write_data s ((v >>> 4) &&& 15) ++ lcd_write_data s (v &&& 15))
    ∧ (∀ d : Nat, lcd_write_data s d = lcd_write_data s (d &&& 15))
    ∧ (∀ lv : Nat,
        Event.pinWrite s.rs_pin lv ∉
          lcd_write_data s ((v >>> 4) &&& 15) ++ lcd_write_data s (v &&& 15)) := by
  have h256 : v % 256 = v := Nat.mod_eq_of_lt hv
  have hmm : m % 256 = m := Nat.mod_eq_of_lt (lt_trans hm (by norm_num))
  have hhi : (v >>> 4) &&& 15 = v >>> 4 := by
    have hlt : v >>> 4 < 16 := by
      rw [Nat.shiftRight_eq_div_pow]
      omega
    have h := Nat.and_pow_two_sub_one_eq_mod (v >>> 4) 4
    norm_num at h
    rw [h]
    exact Nat.mod_eq_of_lt hlt
  refine ⟨?_, fun d => write_data_low_nibble s d, ?_⟩
  · show Event.pinWrite s.rs_pin (m % 256)
        :: (lcd_write_data s ((v % 256) >>> 4) ++ lcd_write_data s (v % 256)) = _
    rw [h256, hmm, hhi, ← write_data_low_nibble s v]
  · intro lv hmem
    rcases List.mem_append.mp hmem with hin | hin
    · exact rs_not_in_write_data s hd4 hd5 hd6 hd7 hen _ lv hin
    · exact rs_not_in_write_data s hd4 hd5 hd6 hd7 hen _ lv hin

/-- Witness for claim C1 at value 0x48, mode 1, on the demo pin layout. -/
theorem send_two_nibble_transmissions_witness :
    (72 : Nat) < 256 ∧ (1 : Nat) < 2 ∧
    lcd_send demoState 72 1 =
      Event.pinWrite demoState.rs_pin 1
        :: (lcd_write_data demoState ((72 >>> 4) &&& 15)
            ++ lcd_write_data demoState (72 &&& 15)) :=
  ⟨by decide, by decide,
    (send_two_nibble_transmissions demoState 72 1 (by decide) (by decide)
      (by decide) (by decide) (by decide) (by decide) (by decide)).1⟩

/-- Claim C2: `lcd_init` emits, in order: a 50 ms wait, register-select
driven low, three 0x03 nibble transmissions followed by waits of 5 ms, 5 ms
and 150 us, one 0x02 nibble transmission, the Function-Set command, the
Display-Control command with the display-on bit set, the Clear-Display
command with its 2 ms wait, and the Entry-Mode-Set command; the waits meet
the 50 ms, 4.1 ms, 4.1 ms and 100 us minima. -/
theorem init_sequence_order (s0 : LCDState) (rs en d4 d5 d6 d7 : Nat) :
    interp (lcd_init s0 rs en d4 d5 d6 d7).1 (lcd_init s0 rs en d4 d5 d6 d7).2
      = [Event.delayMs 50, Event.pinWrite rs 0]
        ++ lcd_write_data (lcd_init s0 rs en d4 d5 d6 d7).1 0x03
        ++ [Event.delayMs 5]
        ++ lcd_write_data (lcd_init s0 rs en d4 d5 d6 d7).1 0x03
        ++ [Event.delayMs 5]
        ++ lcd_write_data (lcd_init s0 rs en d4 d5 d6 d7).1 0x03
        ++ [Event.delayUs 150]
        ++ lcd_write_data (lcd_init s0 rs en d4 d5 d6 d7).1 0x02
        ++ lcd_send (lcd_init s0 rs en d4 d5 d6 d7).1
            (LCD_FUNCTIONSET ||| (LCD_4BITMODE ||| LCD_2LINE ||| LCD_5x8DOTS)) 0
        ++ lcd_send (lcd_init s0 rs en d4 d5 d6 d7).1
            (LCD_DISPLAYCONTROL ||| (LCD_DISPLAYON ||| LCD_CURSOROFF ||| LCD_BLINKOFF)) 0
        ++ lcd_send (lcd_init s0 rs en d4 d5 d6 d7).1 LCD_CLEARDISPLAY 0
        ++ [Event.delayMs 2]
        ++ lcd_send (lcd_init s0 rs en d4 d5 d6 d7).1
            (LCD_ENTRYMODESET ||| (LCD_ENTRYLEFT ||| LCD_ENTRYSHIFTDECREMENT)) 0
    ∧ 50 ≥ 50 ∧ 5 * 1000 ≥ 4100 ∧ 150 ≥ 100
    ∧ (LCD_DISPLAYCONTROL ||| (LCD_DISPLAYON ||| LCD_CURSOROFF ||| LCD_BLINKOFF))
        &&& LCD_DISPLAYON ≠ 0 := by
  refine ⟨?_, by norm_num, by norm_num, by norm_num, by decide⟩
  simp [lcd_init, lcd_display_on, lcd_clear, lcd_command, interp, interpAct,
    lcd_send, lcd_write_data, enable_pulse,
    LCD_FUNCTIONSET, LCD_4BITMODE, LCD_2LINE, LCD_5x8DOTS,
    LCD_DISPLAYCONTROL, LCD_DISPLAYON, LCD_CURSOROFF, LCD_BLINKOFF,
    LCD_CLEARDISPLAY, LCD_ENTRYMODESET, LCD_ENTRYLEFT, LCD_ENTRYSHIFTDECREMENT]

/-! ### Tracking the last display-control / entry-mode command in a trace -/

lemma or_lt_4 {a b : Nat} (ha : a < 4) (hb : b < 4) : a ||| b < 4 := by
  have h : (4 : Nat) = 2 ^ 2 := by norm_num
  rw [h] at ha hb ⊢
  exact Nat.or_lt_two_pow ha hb

lemma trackDC_append (a b : List Act) (d : Nat) :
    trackDC (a ++ b) d = trackDC b (trackDC a d) := by
  simp [trackDC, List.foldl_append]

lemma trackEM_append (a b : List Act) (e : Nat) :
    trackEM (a ++ b) e = trackEM b (trackEM a e) := by
  simp [trackEM, List.foldl_append]

lemma trackDC_cons (a : Act) (tr : List Act) (d : Nat) :
    trackDC (a :: tr) d = trackDC tr ((dcByte a).getD d) := rfl

lemma trackEM_cons (a : Act) (tr : List Act) (e : Nat) :
    trackEM (a :: tr) e = trackEM tr ((emByte a).getD e) := rfl

lemma trackDC_one (a : Act) (d : Nat) : trackDC [a] d = (dcByte a).getD d := rfl

lemma trackEM_one (a : Act) (e : Nat) : trackEM [a] e = (emByte a).getD e := rfl

lemma trackDC_two (a b : Act) (d : Nat) :
    trackDC [a, b] d = (dcByte b).getD ((dcByte a).getD d) := rfl

lemma trackEM_two (a b : Act) (e : Nat) :
    trackEM [a, b] e = (emByte b).getD ((emByte a).getD e) := rfl

lemma dcByte_send1 (v : Nat) : dcByte (Act.send v 1) = none := by
  simp [dcByte]

lemma emByte_send1 (v : Nat) : emByte (Act.send v 1) = none := by
  simp [emByte]

lemma dcByte_send0_none {v : Nat} (h : v < 8 ∨ 16 ≤ v) :
    dcByte (Act.send v 0) = none := by
  have hc : ¬(LCD_DISPLAYCONTROL ≤ v ∧ v < 2 * LCD_DISPLAYCONTROL) := by
    rintro ⟨ha, hb⟩
    simp only [LCD_DISPLAYCONTROL] at ha hb
    omega
  simp only [dcByte, true_and]
  rw [if_neg hc]

lemma dcByte_send0_some {v : Nat} (h1 : 8 ≤ v) (h2 : v < 16) :
    dcByte (Act.send v 0) = some v := by
  have hc : LCD_DISPLAYCONTROL ≤ v ∧ v < 2 * LCD_DISPLAYCONTROL :=
    ⟨by simp only [LCD_DISPLAYCONTROL]; omega,
      by simp only [LCD_DISPLAYCONTROL]; omega⟩
  simp only [dcByte, true_and]
  rw [if_pos hc]

lemma emByte_send0_none {v : Nat} (h : v < 4 ∨ 8 ≤ v) :
    emByte (Act.send v 0) = none := by
  have hc : ¬(LCD_ENTRYMODESET ≤ v ∧ v < 2 * LCD_ENTRYMODESET) := by
    rintro ⟨ha, hb⟩
    simp only [LCD_ENTRYMODESET] at ha hb
    omega
  simp only [emByte, true_and]
  rw [if_neg hc]

lemma emByte_send0_some {v : Nat} (h1 : 4 ≤ v) (h2 : v < 8) :
    emByte (Act.send v 0) = some v := by
  have hc : LCD_ENTRYMODESET ≤ v ∧ v < 2 * LCD_ENTRYMODESET :=
    ⟨by simp only [LCD_ENTRYMODESET]; omega,
      by simp only [LCD_ENTRYMODESET]; omega⟩
  simp only [emByte, true_and]
  rw [if_pos hc]

lemma dc_cmd_track (dc2 seedD seedE : Nat) (h2 : dc2 < 8) :
    trackDC [Act.send ((8 ||| dc2) % 256) 0] seedD = 8 ||| dc2
    ∧ trackEM [Act.send ((8 ||| dc2) % 256) 0] seedE = seedE := by
  have hlt16 : 8 ||| dc2 < 16 := or_lt_16 (by norm_num) (lt_trans h2 (by norm_num))
  have hmod : (8 ||| dc2) % 256 = 8 ||| dc2 :=
    Nat.mod_eq_of_lt (lt_trans hlt16 (by norm_num))
  rw [hmod, trackDC_one, trackEM_one,
    dcByte_send0_some (eight_le_or dc2) hlt16,
    emByte_send0_none (Or.inr (eight_le_or dc2))]
  exact ⟨rfl, rfl⟩

lemma em_cmd_track (dm2 seedD seedE : Nat) (h2 : dm2 < 4) :
    trackDC [Act.send ((4 ||| dm2) % 256) 0] seedD = seedD
    ∧ trackEM [Act.send ((4 ||| dm2) % 256) 0] seedE = 4 ||| dm2 := by
  have hlt8 : 4 ||| dm2 < 8 := or_lt_8 (by norm_num) (lt_trans h2 (by norm_num))
  have hmod : (4 ||| dm2) % 256 = 4 ||| dm2 :=
    Nat.mod_eq_of_lt (lt_trans hlt8 (by norm_num))
  rw [hmod, trackDC_one, trackEM_one,
    dcByte_send0_none (Or.inl hlt8),
    emByte_send0_some (four_le_or dm2) hlt8]
  exact ⟨rfl, rfl⟩

lemma track_plain_cmd {v : Nat} (hd : v < 8 ∨ 16 ≤ v) (he : v < 4 ∨ 8 ≤ v)
    (d e : Nat) :
    trackDC [Act.send v 0] d = d ∧ trackEM [Act.send v 0] e = e := by
  rw [trackDC_one, trackEM_one, dcByte_send0_none hd, emByte_send0_none he]
  exact ⟨rfl, rfl⟩

lemma track_cmd_wait {v t : Nat} (hd : v < 8 ∨ 16 ≤ v) (he : v < 4 ∨ 8 ≤ v)
    (d e : Nat) :
    trackDC [Act.send v 0, Act.waitMs t] d = d
    ∧ trackEM [Act.send v 0, Act.waitMs t] e = e := by
  rw [trackDC_two, trackEM_two, dcByte_send0_none hd, emByte_send0_none he]
  exact ⟨rfl, rfl⟩

lemma track_send1 (v d e : Nat) :
    trackDC [Act.send v 1] d = d ∧ trackEM [Act.send v 1] e = e := by
  rw [trackDC_one, trackEM_one, dcByte_send1, emByte_send1]
  exact ⟨rfl, rfl⟩

lemma track_write_string (str : List Nat) (d e : Nat) :
    trackDC (lcd_write_string_acts str) d = d
    ∧ trackEM (lcd_write_string_acts str) e = e := by
  induction str generalizing d e with
  | nil => exact ⟨rfl, rfl⟩
  | cons c rest ih =>
    by_cases hc : c % 256 = 0
    · simp [lcd_write_string_acts, hc, trackDC, trackEM]
    · have hstep : lcd_write_string_acts (c :: rest)
          = Act.send (c % 256) 1 :: lcd_write_string_acts rest := by
        simp [lcd_write_string_acts, hc, lcd_write]
      rw [hstep, trackDC_cons, trackEM_cons, dcByte_send1, emByte_send1]
      exact ih _ _

lemma runOp_track (op : Op) (s : LCDState)
    (hdc : s.display_control < 8) (hdm : s.display_mode < 4) :
    (runOp op s).1.display_control < 8 ∧ (runOp op s).1.display_mode < 4
    ∧ trackDC (runOp op s).2 (8 ||| s.display_control)
        = 8 ||| (runOp op s).1.display_control
    ∧ trackEM (runOp op s).2 (4 ||| s.display_mode)
        = 4 ||| (runOp op s).1.display_mode := by
  have hdc' : s.display_control % 256 = s.display_control :=
    Nat.mod_eq_of_lt (lt_trans hdc (by norm_num))
  have hdm' : s.display_mode % 256 = s.display_mode :=
    Nat.mod_eq_of_lt (lt_trans hdm (by norm_num))
  cases op with
  | displayOff =>
    have hnew : (s.display_control % 256) &&& (255 ^^^ 4) < 8 := by
      rw [hdc']
      exact lt_of_le_of_lt Nat.and_le_left hdc
    obtain ⟨hA, hB⟩ := dc_cmd_track ((s.display_control % 256) &&& (255 ^^^ 4))
      (8 ||| s.display_control) (4 ||| s.display_mode) hnew
    exact ⟨hnew, hdm, hA, hB⟩
  | displayOn =>
    have hnew : (s.display_control % 256) ||| 4 < 8 := by
      rw [hdc']
      exact or_lt_8 hdc (by norm_num)
    obtain ⟨hA, hB⟩ := dc_cmd_track ((s.display_control % 256) ||| 4)
      (8 ||| s.display_control) (4 ||| s.display_mode) hnew
    exact ⟨hnew, hdm, hA, hB⟩
  | cursorOn =>
    have hnew : (s.display_control % 256) ||| 2 < 8 := by
      rw [hdc']
      exact or_lt_8 hdc (by norm_num)
    obtain ⟨hA, hB⟩ := dc_cmd_track ((s.display_control % 256) ||| 2)
      (8 ||| s.display_control) (4 ||| s.display_mode) hnew
    exact ⟨hnew, hdm, hA, hB⟩
  | cursorOff =>
    have hnew : (s.display_control % 256) &&& (255 ^^^ 2) < 8 := by
      rw [hdc']
      exact lt_of_le_of_lt Nat.and_le_left hdc
    obtain ⟨hA, hB⟩ := dc_cmd_track ((s.display_control % 256) &&& (255 ^^^ 2))
      (8 ||| s.display_control) (4 ||| s.display_mode) hnew
    exact ⟨hnew, hdm, hA, hB⟩
  | blinkOn =>
    have hnew : (s.display_control % 256) ||| 1 < 8 := by
      rw [hdc']
      exact or_lt_8 hdc (by norm_num)
    obtain ⟨hA, hB⟩ := dc_cmd_track ((s.display_control % 256) ||| 1)
      (8 ||| s.display_control) (4 ||| s.display_mode) hnew
    exact ⟨hnew, hdm, hA, hB⟩
  | blinkOff =>
    have hnew : (s.display_control % 256) &&& (255 ^^^ 1) < 8 := by
      rw [hdc']
      exact lt_of_le_of_lt Nat.and_le_left hdc
    obtain ⟨hA, hB⟩ := dc_cmd_track ((s.display_control % 256) &&& (255 ^^^ 1))
      (8 ||| s.display_control) (4 ||| s.display_mode) hnew
    exact ⟨hnew, hdm, hA, hB⟩
  | autoscrollOn =>
    have hnew : (s.display_mode % 256) ||| 1 < 4 := by
      rw [hdm']
      exact or_lt_4 hdm (by norm_num)
    obtain ⟨hA, hB⟩ := em_cmd_track ((s.display_mode % 256) ||| 1)
      (8 ||| s.display_control) (4 ||| s.display_mode) hnew
    exact ⟨hdc, hnew, hA, hB⟩
  | autoscrollOff =>
    have hnew : (s.display_mode % 256) &&& (255 ^^^ 1) < 4 := by
      rw [hdm']
      exact lt_of_le_of_lt Nat.and_le_left hdm
    obtain ⟨hA, hB⟩ := em_cmd_track ((s.display_mode % 256) &&& (255 ^^^ 1))
      (8 ||| s.display_control) (4 ||| s.display_mode) hnew
    exact ⟨hdc, hnew, hA, hB⟩
  | rightToLeft =>
    have hnew : (s.display_mode % 256) &&& (255 ^^^ 2) < 4 := by
      rw [hdm']
      exact lt_of_le_of_lt Nat.and_le_left hdm
    obtain ⟨hA, hB⟩ := em_cmd_track ((s.display_mode % 256) &&& (255 ^^^ 2))
      (8 ||| s.display_control) (4 ||| s.display_mode) hnew
    exact ⟨hdc, hnew, hA, hB⟩
  | leftToRight =>
    have hnew : (s.display_mode % 256) ||| 2 < 4 := by
      rw [hdm']
      exact or_lt_4 hdm (by norm_num)
    obtain ⟨hA, hB⟩ := em_cmd_track ((s.display_mode % 256) ||| 2)
      (8 ||| s.display_control) (4 ||| s.display_mode) hnew
    exact ⟨hdc, hnew, hA, hB⟩
  | clear =>
    obtain ⟨hA, hB⟩ := track_cmd_wait (v := LCD_CLEARDISPLAY % 256) (t := 2)
      (Or.inl (by decide)) (Or.inl (by decide))
      (8 ||| s.display_control) (4 ||| s.display_mode)
    exact ⟨hdc, hdm, hA, hB⟩
  | home =>
    obtain ⟨hA, hB⟩ := track_cmd_wait (v := LCD_RETURNHOME % 256) (t := 2)
      (Or.inl (by decide)) (Or.inl (by decide))
      (8 ||| s.display_control) (4 ||| s.display_mode)
    exact ⟨hdc, hdm, hA, hB⟩
  | shiftLeft =>
    obtain ⟨hA, hB⟩ := track_plain_cmd
      (v := (LCD_CURSORSHIFT ||| LCD_DISPLAYMOVE ||| LCD_MOVELEFT) % 256)
      (Or.inr (by decide)) (Or.inr (by decide))
      (8 ||| s.display_control) (4 ||| s.display_mode)
    exact ⟨hdc, hdm, hA, hB⟩
  | shiftRight =>
    obtain ⟨hA, hB⟩ := track_plain_cmd
      (v := (LCD_CURSORSHIFT ||| LCD_DISPLAYMOVE ||| LCD_MOVERIGHT) % 256)
      (Or.inr (by decide)) (Or.inr (by decide))
      (8 ||| s.display_control) (4 ||| s.display_mode)
    exact ⟨hdc, hdm, hA, hB⟩
  | setCursor col row =>
    have h16 : (16 : Nat) ≤ (LCD_SETDDRAMADDR |||
        ((col % 65536) +
          row_offsets.getD (min (row % 256) (min (4 - 1) (NUM_LINES - 1))) 0))
        % 256 :=
      le_trans (by norm_num) (le_or_mod256 _)
    have h8 : (8 : Nat) ≤ (LCD_SETDDRAMADDR |||
        ((col % 65536) +
          row_offsets.getD (min (row % 256) (min (4 - 1) (NUM_LINES - 1))) 0))
        % 256 :=
      le_trans (by norm_num) (le_or_mod256 _)
    obtain ⟨hA, hB⟩ := track_plain_cmd (Or.inr h16) (Or.inr h8)
      (8 ||| s.display_control) (4 ||| s.display_mode)
    refine ⟨hdc, hdm, ?_, ?_⟩
    · rw [show (runOp (Op.setCursor col row) s).2 = (lcd_set_cursor s col row).2
          from rfl, set_cursor_trace]
      exact hA
    · rw [show (runOp (Op.setCursor col row) s).2 = (lcd_set_cursor s col row).2
          from rfl, set_cursor_trace]
      exact hB
  | writeChar c =>
    obtain ⟨hA, hB⟩ := track_send1 (c % 256)
      (8 ||| s.display_control) (4 ||| s.display_mode)
    exact ⟨hdc, hdm, hA, hB⟩
  | writeString str =>
    obtain ⟨hA, hB⟩ := track_write_string str
      (8 ||| s.display_control) (4 ||| s.display_mode)
    exact ⟨hdc, hdm, hA, hB⟩
  | writeInt num =>
    obtain ⟨hA, hB⟩ := track_write_string (sprintf_d num)
      (8 ||| s.display_control) (4 ||| s.display_mode)
    exact ⟨hdc, hdm, hA, hB⟩
  | writeFloat f =>
    obtain ⟨hA, hB⟩ := track_write_string f
      (8 ||| s.display_control) (4 ||| s.display_mode)
    exact ⟨hdc, hdm, hA, hB⟩

lemma runOps_track (ops : List Op) (s : LCDState)
    (hdc : s.display_control < 8) (hdm : s.display_mode < 4) :
    (runOps ops s).1.display_control < 8 ∧ (runOps ops s).1.display_mode < 4
    ∧ trackDC (runOps ops s).2 (8 ||| s.display_control)
        = 8 ||| (runOps ops s).1.display_control
    ∧ trackEM (runOps ops s).2 (4 ||| s.display_mode)
        = 4 ||| (runOps ops s).1.display_mode := by
  induction ops generalizing s with
  | nil => exact ⟨hdc, hdm, rfl, rfl⟩
  | cons op rest ih =>
    obtain ⟨h1, h2, h3, h4⟩ := runOp_track op s hdc hdm
    obtain ⟨g1, g2, g3, g4⟩ := ih (runOp op s).1 h1 h2
    refine ⟨g1, g2, ?_, ?_⟩
    · rw [show (runOps (op :: rest) s).2
          = (runOp op s).2 ++ (runOps rest (runOp op s).1).2 from rfl,
        trackDC_append, h3]
      exact g3
    · rw [show (runOps (op :: rest) s).2
          = (runOp op s).2 ++ (runOps rest (runOp op s).1).2 from rfl,
        trackEM_append, h4]
      exact g4

/-- Claim C6: after `lcd_init`, in every state reachable by any sequence of
public operations, `display_control` (resp. `display_mode`) is the payload
of the last display-control (resp. entry-mode-set) command byte in the
transmitted trace; moreover any single operation that changes one of these
bytes emits exactly the corresponding full command byte and nothing else. -/
theorem state_mirrors_last_command (s0 : LCDState)
    (rs en d4 d5 d6 d7 : Nat) (ops : List Op) :
    (trackDC ((lcd_init s0 rs en d4 d5 d6 d7).2
        ++ (runOps ops (lcd_init s0 rs en d4 d5 d6 d7).1).2) 0
      = LCD_DISPLAYCONTROL
          ||| (runOps ops (lcd_init s0 rs en d4 d5 d6 d7).1).1.display_control)
    ∧ (trackEM ((lcd_init s0 rs en d4 d5 d6 d7).2
        ++ (runOps ops (lcd_init s0 rs en d4 d5 d6 d7).1).2) 0
      = LCD_ENTRYMODESET
          ||| (runOps ops (lcd_init s0 rs en d4 d5 d6 d7).1).1.display_mode)
    ∧ (∀ (s : LCDState) (op : Op),
        ((runOp op s).1.display_control ≠ s.display_control →
          (runOp op s).2
            = [Act.send (LCD_DISPLAYCONTROL
                ||| (runOp op s).1.display_control) 0])
        ∧ ((runOp op s).1.display_mode ≠ s.display_mode →
          (runOp op s).2
            = [Act.send (LCD_ENTRYMODESET
                ||| (runOp op s).1.display_mode) 0])) := by
  have hc4 : (lcd_init s0 rs en d4 d5 d6 d7).1.display_control = 4 := by
    simp [lcd_init, lcd_display_on, lcd_clear,
      LCD_DISPLAYON, LCD_CURSOROFF, LCD_BLINKOFF]
  have hm2 : (lcd_init s0 rs en d4 d5 d6 d7).1.display_mode = 2 := by
    simp [lcd_init, lcd_display_on, lcd_clear,
      LCD_ENTRYLEFT, LCD_ENTRYSHIFTDECREMENT]
  have hinitDC : trackDC (lcd_init s0 rs en d4 d5 d6 d7).2 0 = 12 := by
    simp [lcd_init, lcd_display_on, lcd_clear, lcd_command, trackDC, dcByte,
      LCD_FUNCTIONSET, LCD_4BITMODE, LCD_2LINE, LCD_5x8DOTS,
      LCD_DISPLAYCONTROL, LCD_DISPLAYON, LCD_CURSOROFF, LCD_BLINKOFF,
      LCD_CLEARDISPLAY, LCD_ENTRYMODESET, LCD_ENTRYLEFT, LCD_ENTRYSHIFTDECREMENT]
  have hinitEM : trackEM (lcd_init s0 rs en d4 d5 d6 d7).2 0 = 6 := by
    simp [lcd_init, lcd_display_on, lcd_clear, lcd_command, trackEM, emByte,
      LCD_FUNCTIONSET, LCD_4BITMODE, LCD_2LINE, LCD_5x8DOTS,
      LCD_DISPLAYCONTROL, LCD_DISPLAYON, LCD_CURSOROFF, LCD_BLINKOFF,
      LCD_CLEARDISPLAY, LCD_ENTRYMODESET, LCD_ENTRYLEFT, LCD_ENTRYSHIFTDECREMENT]
  obtain ⟨g1, g2, g3, g4⟩ := runOps_track ops (lcd_init s0 rs en d4 d5 d6 d7).1
    (by rw [hc4]; norm_num) (by rw [hm2]; norm_num)
  refine ⟨?_, ?_, ?_⟩
  · rw [trackDC_append, hinitDC]
    rw [hc4] at g3
    rw [show (8 : Nat) ||| 4 = 12 from by decide] at g3
    exact g3
  · rw [trackEM_append, hinitEM]
    rw [hm2] at g4
    rw [show (4 : Nat) ||| 2 = 6 from by decide] at g4
    exact g4
  · intro s op
    cases op with
    | displayOff =>
      refine ⟨fun _ => ?_, fun h => absurd rfl h⟩
      simp only [runOp, lcd_display_off, lcd_command]
      have hlt : LCD_DISPLAYCONTROL
          ||| ((s.display_control % 256) &&& (255 ^^^ LCD_DISPLAYON)) < 256 :=
        or_lt_256 (by decide) (lt_of_le_of_lt Nat.and_le_left (mod256_lt _))
      rw [Nat.mod_eq_of_lt hlt]
    | displayOn =>
      refine ⟨fun _ => ?_, fun h => absurd rfl h⟩
      simp only [runOp, lcd_display_on, lcd_command]
      have hlt : LCD_DISPLAYCONTROL
          ||| ((s.display_control % 256) ||| LCD_DISPLAYON) < 256 :=
        or_lt_256 (by decide) (or_lt_256 (mod256_lt _) (by decide))
      rw [Nat.mod_eq_of_lt hlt]
    | cursorOn =>
      refine ⟨fun _ => ?_, fun h => absurd rfl h⟩
      simp only [runOp, lcd_cursor_on, lcd_command]
      have hlt : LCD_DISPLAYCONTROL
          ||| ((s.display_control % 256) ||| LCD_CURSORON) < 256 :=
        or_lt_256 (by decide) (or_lt_256 (mod256_lt _) (by decide))
      rw [Nat.mod_eq_of_lt hlt]
    | cursorOff =>
      refine ⟨fun _ => ?_, fun h => absurd rfl h⟩
      simp only [runOp, lcd_cursor_off, lcd_command]
      have hlt : LCD_DISPLAYCONTROL
          ||| ((s.display_control % 256) &&& (255 ^^^ LCD_CURSORON)) < 256 :=
        or_lt_256 (by decide) (lt_of_le_of_lt Nat.and_le_left (mod256_lt _))
      rw [Nat.mod_eq_of_lt hlt]
    | blinkOn =>
      refine ⟨fun _ => ?_, fun h => absurd rfl h⟩
      simp only [runOp, lcd_blink_on, lcd_command]
      have hlt : LCD_DISPLAYCONTROL
          ||| ((s.display_control % 256) ||| LCD_BLINKON) < 256 :=
        or_lt_256 (by decide) (or_lt_256 (mod256_lt _) (by decide))
      rw [Nat.mod_eq_of_lt hlt]
    | blinkOff =>
      refine ⟨fun _ => ?_, fun h => absurd rfl h⟩
      simp only [runOp, lcd_blink_off, lcd_command]
      have hlt : LCD_DISPLAYCONTROL
          ||| ((s.display_control % 256) &&& (255 ^^^ LCD_BLINKON)) < 256 :=
        or_lt_256 (by decide) (lt_of_le_of_lt Nat.and_le_left (mod256_lt _))
      rw [Nat.mod_eq_of_lt hlt]
    | autoscrollOn =>
      refine ⟨fun h => absurd rfl h, fun _ => ?_⟩
      simp only [runOp, lcd_autoscroll_on, lcd_command]
      have hlt : LCD_ENTRYMODESET
          ||| ((s.display_mode % 256) ||| LCD_ENTRYSHIFTINCREMENT) < 256 :=
        or_lt_256 (by decide) (or_lt_256 (mod256_lt _) (by decide))
      rw [Nat.mod_eq_of_lt hlt]
    | autoscrollOff =>
      refine ⟨fun h => absurd rfl h, fun _ => ?_⟩
      simp only [runOp, lcd_autoscroll_off, lcd_command]
      have hlt : LCD_ENTRYMODESET
          ||| ((s.display_mode % 256) &&& (255 ^^^ LCD_ENTRYSHIFTINCREMENT)) < 256 :=
        or_lt_256 (by decide) (lt_of_le_of_lt Nat.and_le_left (mod256_lt _))
      rw [Nat.mod_eq_of_lt hlt]
    | rightToLeft =>
      refine ⟨fun h => absurd rfl h, fun _ => ?_⟩
      simp only [runOp, lcd_right_to_left, lcd_command]
      have hlt : LCD_ENTRYMODESET
          ||| ((s.display_mode % 256) &&& (255 ^^^ LCD_ENTRYLEFT)) < 256 :=
        or_lt_256 (by decide) (lt_of_le_of_lt Nat.and_le_left (mod256_lt _))
      rw [Nat.mod_eq_of_lt hlt]
    | leftToRight =>
      refine ⟨fun h => absurd rfl h, fun _ => ?_⟩
      simp only [runOp, lcd_left_to_right, lcd_command]
      have hlt : LCD_ENTRYMODESET
          ||| ((s.display_mode % 256) ||| LCD_ENTRYLEFT) < 256 :=
        or_lt_256 (by decide) (or_lt_256 (mod256_lt _) (by decide))
      rw [Nat.mod_eq_of_lt hlt]
    | clear => exact ⟨fun h => absurd rfl h, fun h => absurd rfl h⟩
    | home => exact ⟨fun h => absurd rfl h, fun h => absurd rfl h⟩
    | shiftLeft => exact ⟨fun h => absurd rfl h, fun h => absurd rfl h⟩
    | shiftRight => exact ⟨fun h => absurd rfl h, fun h => absurd rfl h⟩
    | setCursor col row => exact ⟨fun h => absurd rfl h, fun h => absurd rfl h⟩
    | writeChar c => exact ⟨fun h => absurd rfl h, fun h => absurd rfl h⟩
    | writeString str => exact ⟨fun h => absurd rfl h, fun h => absurd rfl h⟩
    | writeInt num => exact ⟨fun h => absurd rfl h, fun h => absurd rfl h⟩
    | writeFloat f => exact ⟨fun h => absurd rfl h, fun h => absurd rfl h⟩

/-- Witness for claim C6: `lcd_cursor_on` from the post-init state changes
`display_control` and emits exactly the corresponding full command byte. -/
theorem state_mirrors_last_command_witness :
    (runOp Op.cursorOn demoState).1.display_control ≠ demoState.display_control
    ∧ (runOp Op.cursorOn demoState).2
        = [Act.send (LCD_DISPLAYCONTROL
            ||| (runOp Op.cursorOn demoState).1.display_control) 0] :=
  ⟨by decide,
    ((state_mirrors_last_command demoState 1 2 3 4 5 6 []).2.2
      demoState Op.cursorOn).1 (by decide)⟩

end LCD16x2
